import Mathlib

/-!
# Flood Risk Predictor — verification of the classification and table pipeline

Shallow embedding of `flood_risk_app.py`.  Python floats are modelled as
exact rationals (`ℚ`) together with an explicit `nan` value; cells of a
pandas `DataFrame` may also hold strings, so a cell is a `PyVal`.
Comparing a string with a number raises `TypeError` in Python 3, which the
embedding models with `Except Unit`.
-/

namespace FloodApp

/-- A scalar value held in a pandas cell: a float (exact rational), the
floating-point `NaN`, or a string. -/
inductive PyVal where
  | num (q : ℚ)
  | nan
  | str (s : String)
deriving DecidableEq, Repr

/-- Python `v < c` against a numeric constant: `NaN` compares false,
comparing a string with a number raises `TypeError`. -/
def pyLt (v : PyVal) (c : ℚ) : Except Unit Bool :=
  match v with
  | .num q => .ok (decide (q < c))
  | .nan => .ok false
  | .str _ => .error ()

/-- Python `v > c` against a numeric constant: `NaN` compares false,
comparing a string with a number raises `TypeError`. -/
def pyGt (v : PyVal) (c : ℚ) : Except Unit Bool :=
  match v with
  | .num q => .ok (decide (c < q))
  | .nan => .ok false
  | .str _ => .error ()

/-- Python's short-circuiting `and` on boolean results (the second operand
is not evaluated when the first is false). -/
def pyAnd (a b : Except Unit Bool) : Except Unit Bool := do
  if (← a) then b else return false

/-- `calculate_flood_risk(elevation, rainfall)` from `flood_risk_app.py`:

    if elevation < 10 and rainfall > 50: return "High"
    elif elevation < 20 and rainfall > 30: return "Medium"
    else: return "Low"
-/
def calculate_flood_risk (elevation rainfall : PyVal) : Except Unit String := do
  if (← pyAnd (pyLt elevation 10) (pyGt rainfall 50)) then
    return "High"
  else if (← pyAnd (pyLt elevation 20) (pyGt rainfall 30)) then
    return "Medium"
  else
    return "Low"

/-- Closed form of the classifier on two actual floats. -/
theorem classify_num_eq (e r : ℚ) :
    calculate_flood_risk (.num e) (.num r) =
      .ok (if e < 10 ∧ 50 < r then "High"
           else if e < 20 ∧ 30 < r then "Medium"
           else "Low") := by
  unfold calculate_flood_risk pyAnd pyLt pyGt
  by_cases h1 : e < 10 <;> by_cases h2 : 50 < r <;>
    by_cases h3 : e < 20 <;> by_cases h4 : 30 < r <;>
    simp [h1, h2, h3, h4] <;> rfl

/-- `true` when the value is an actual Python float (a number or `NaN`). -/
def PyVal.isFloat : PyVal → Bool
  | .num _ => true
  | .nan => true
  | .str _ => false

/-- C1, counterexample: the claim asserts `classify(10, 50) = Low`, but the
code returns `Medium`: rule 1 fails (`10 < 10` is false) while rule 2 fires
(`10 < 20` and `50 > 30` both hold). -/
theorem C1_boundary_counterexample :
    calculate_flood_risk (.num 10) (.num 50) = .ok "Medium" ∧
    (Except.ok "Medium" : Except Unit String) ≠ .ok "Low" := by
  constructor
  · rw [classify_num_eq]
    norm_num
  · simp

/-- C1, amended: for every pair of float inputs, `calculate_flood_risk`
returns exactly one of High/Medium/Low by the ordered first-match rules with
strict inequalities, and on the quoted examples gives
`classify(5,60)=High`, `classify(15,40)=Medium`, `classify(30,20)=Low`,
`classify(9.9,50.1)=High` and — correcting the claim — `classify(10,50)=Medium`. -/
theorem C1_classifier_rules :
    (∀ e r : ℚ,
      (calculate_flood_risk (.num e) (.num r) = .ok "High" ∨
        calculate_flood_risk (.num e) (.num r) = .ok "Medium" ∨
        calculate_flood_risk (.num e) (.num r) = .ok "Low") ∧
      (calculate_flood_risk (.num e) (.num r) = .ok "High" ↔ e < 10 ∧ r > 50) ∧
      (calculate_flood_risk (.num e) (.num r) = .ok "Medium" ↔
        ¬(e < 10 ∧ r > 50) ∧ (e < 20 ∧ r > 30)) ∧
      (calculate_flood_risk (.num e) (.num r) = .ok "Low" ↔
        ¬(e < 10 ∧ r > 50) ∧ ¬(e < 20 ∧ r > 30))) ∧
    calculate_flood_risk (.num 5) (.num 60) = .ok "High" ∧
    calculate_flood_risk (.num 15) (.num 40) = .ok "Medium" ∧
    calculate_flood_risk (.num 30) (.num 20) = .ok "Low" ∧
    calculate_flood_risk (.num 9.9) (.num 50.1) = .ok "High" ∧
    calculate_flood_risk (.num 10) (.num 50) = .ok "Medium" := by
  refine ⟨fun e r => ?_, ?_, ?_, ?_, ?_, ?_⟩ <;>
    simp only [classify_num_eq] <;> norm_num
  split_ifs with h1 h2 <;> simp_all

/-- C2: when elevation or rainfall is NaN (and neither input is a
non-float), both rule conditions evaluate to false and the classifier
returns `Low` without raising. -/
theorem C2_nan_returns_low (e r : PyVal)
    (he : e.isFloat = true) (hr : r.isFloat = true)
    (hnan : e = PyVal.nan ∨ r = PyVal.nan) :
    pyAnd (pyLt e 10) (pyGt r 50) = .ok false ∧
    pyAnd (pyLt e 20) (pyGt r 30) = .ok false ∧
    calculate_flood_risk e r = .ok "Low" := by
  rcases hnan with h | h
  · subst h
    exact ⟨rfl, rfl, rfl⟩
  · subst h
    cases e with
    | num q =>
        refine ⟨?_, ?_, ?_⟩ <;>
          by_cases hq1 : q < 10 <;> by_cases hq2 : q < 20 <;>
            simp [pyAnd, pyLt, pyGt, calculate_flood_risk, hq1, hq2] <;> rfl
    | nan => exact ⟨rfl, rfl, rfl⟩
    | str s => simp [PyVal.isFloat] at he

/-- C2, witness: instantiated at `elevation = NaN`, `rainfall = 60.0`. -/
theorem C2_nan_returns_low_witness :
    pyAnd (pyLt PyVal.nan 10) (pyGt (PyVal.num 60) 50) = .ok false ∧
    pyAnd (pyLt PyVal.nan 20) (pyGt (PyVal.num 60) 30) = .ok false ∧
    calculate_flood_risk PyVal.nan (PyVal.num 60) = .ok "Low" :=
  C2_nan_returns_low PyVal.nan (PyVal.num 60) rfl rfl (Or.inl rfl)

/-- A pandas DataFrame: named columns and row-major cells. -/
structure DataFrame where
  columns : List String
  rows : List (List PyVal)
deriving DecidableEq, Repr

/-- Well-formed: every row has one cell per column. -/
def DataFrame.WF (df : DataFrame) : Prop :=
  ∀ row ∈ df.rows, row.length = df.columns.length

/-- `row[c]`: positional lookup of a column's cell in a row; a missing
column or a short row raises (`KeyError`). -/
def lookupCell : List String → List PyVal → String → Except Unit PyVal
  | [], _, _ => .error ()
  | _ :: _, [], _ => .error ()
  | c' :: cols, v :: row, c => if c' = c then .ok v else lookupCell cols row c

/-- The cell of `row` under column `c`, defaulting to NaN; used only to
state properties of rows on which `lookupCell` succeeds. -/
def cellD (df : DataFrame) (row : List PyVal) (c : String) : PyVal :=
  (lookupCell df.columns row c).toOption.getD .nan

/-- The `required_cols` list checked in `main`. -/
def requiredCols : List String := ["Latitude", "Longitude", "Elevation", "Rainfall"]

/-- `missing_cols = [col for col in required_cols if col not in df.columns]`. -/
def missingCols (cols : List String) : List String :=
  requiredCols.filter (fun c => !(cols.contains c))

/-- Row-wise `df.apply` over `Except`: the first raising row aborts the whole
application with that exception. -/
def mapExcept (f : α → Except Unit β) : List α → Except Unit (List β)
  | [] => .ok []
  | x :: xs => do
      let y ← f x
      let ys ← mapExcept f xs
      return y :: ys

/-- One row of
`df.apply(lambda row: calculate_flood_risk(row['Elevation'], row['Rainfall']), axis=1)`. -/
def classifyRow (cols : List String) (row : List PyVal) : Except Unit String := do
  calculate_flood_risk (← lookupCell cols row "Elevation")
    (← lookupCell cols row "Rainfall")

/-- `df[name] = vals`: pandas column assignment — replace the column in
place when it already exists, otherwise append it on the right. -/
def setColumn (df : DataFrame) (name : String) (vals : List PyVal) : DataFrame :=
  if df.columns.contains name then
    { columns := df.columns,
      rows := List.zipWith
        (fun row v => row.set (df.columns.findIdx (· == name)) v) df.rows vals }
  else
    { columns := df.columns ++ [name],
      rows := List.zipWith (fun row v => row ++ [v]) df.rows vals }

/-- `df['Flood_Risk'] = df.apply(...)` from `main`. -/
def classifyDf (df : DataFrame) : Except Unit DataFrame := do
  let risks ← mapExcept (classifyRow df.columns) df.rows
  return setColumn df "Flood_Risk" (risks.map PyVal.str)

/-- `series.isin(allowed)` on one cell: string cells match by equality,
numeric/NaN cells never equal a string. -/
def pyIsin (v : PyVal) (allowed : List String) : Bool :=
  match v with
  | .str s => allowed.contains s
  | _ => false

/-- Boolean-mask row selection, as in `df[mask]`. -/
def maskSelect : List α → List Bool → List α
  | [], _ => []
  | _ :: _, [] => []
  | x :: xs, b :: bs => if b then x :: maskSelect xs bs else maskSelect xs bs

/-- `filtered_df = df[df['Flood_Risk'].isin(risk_filter)]` from `main`. -/
def filterByRisk (df : DataFrame) (allowed : List String) : Except Unit DataFrame := do
  let mask ← mapExcept (fun row => do
      return pyIsin (← lookupCell df.columns row "Flood_Risk") allowed) df.rows
  return { columns := df.columns, rows := maskSelect df.rows mask }

/-- Result of one render cycle of `main` for a given parsed input table. -/
inductive Outcome where
  | instructions
  | missingColumns (cols : List String)
  | exception
  | rendered (classified : DataFrame)
deriving DecidableEq, Repr

/-- The data-dependent part of `main`: `if not df.empty:` validate the
required columns (an error message naming the missing ones halts the
cycle), then classify and render; an uncaught exception inside the
classification `apply` is `Outcome.exception`; an empty table falls
through to the instructions screen. -/
def processData (df : DataFrame) : Outcome :=
  if df.rows.isEmpty then .instructions
  else if (missingCols df.columns).isEmpty then
    match classifyDf df with
    | .ok classified => .rendered classified
    | .error _ => .exception
  else .missingColumns (missingCols df.columns)

theorem lookupCell_ok (cols : List String) (row : List PyVal) (c : String)
    (hc : c ∈ cols) (hlen : cols.length ≤ row.length) :
    ∃ v, lookupCell cols row c = .ok v := by
  induction cols generalizing row with
  | nil => simp at hc
  | cons c' cols ih =>
      cases row with
      | nil => simp at hlen
      | cons v row =>
          by_cases h : c' = c
          · exact ⟨v, by simp [lookupCell, h]⟩
          · have hc' : c ∈ cols := by
              rcases List.mem_cons.mp hc with h' | h'
              · exact absurd h'.symm h
              · exact h'
            have hlen' : cols.length ≤ row.length := by simpa using hlen
            obtain ⟨w, hw⟩ := ih row hc' hlen'
            exact ⟨w, by simp [lookupCell, h, hw]⟩

theorem mapExcept_eq_map (f : α → Except Unit β) (g : α → β) (l : List α)
    (h : ∀ x ∈ l, f x = .ok (g x)) : mapExcept f l = .ok (l.map g) := by
  induction l with
  | nil => rfl
  | cons x xs ih =>
      have hx := h x (List.mem_cons_self x xs)
      have ht := ih (fun y hy => h y (List.mem_cons_of_mem x hy))
      simp only [mapExcept, hx, ht, List.map_cons]
      rfl

theorem mapExcept_error (f : α → Except Unit β) (l : List α)
    (h : ∃ x ∈ l, f x = .error ()) : mapExcept f l = .error () := by
  induction l with
  | nil => simp at h
  | cons x xs ih =>
      rcases h with ⟨y, hy, hfy⟩
      rcases List.mem_cons.mp hy with rfl | hy'
      · simp only [mapExcept, hfy]
        rfl
      · cases hfx : f x with
        | error e =>
            cases e
            simp only [mapExcept, hfx]
            rfl
        | ok v =>
            simp only [mapExcept, hfx, ih ⟨y, hy', hfy⟩]
            rfl

theorem maskSelect_map (p : α → Bool) (l : List α) :
    maskSelect l (l.map p) = l.filter p := by
  induction l with
  | nil => rfl
  | cons x xs ih =>
      by_cases h : p x <;> simp [maskSelect, List.filter_cons, h, ih]

theorem pyIsin_nil (v : PyVal) : pyIsin v [] = false := by
  cases v <;> rfl

/-- C3: filtering the classified table keeps exactly the rows whose
`Flood_Risk` value is in the selected set, in the original order and with
the same columns; the empty selection yields an empty table with the same
columns and no error. -/
theorem C3_filter_rows (df : DataFrame) (allowed : List String)
    (hwf : df.WF) (hcol : "Flood_Risk" ∈ df.columns) :
    filterByRisk df allowed =
      .ok { columns := df.columns,
            rows := df.rows.filter
              (fun row => pyIsin (cellD df row "Flood_Risk") allowed) } ∧
    filterByRisk df [] = .ok { columns := df.columns, rows := [] } := by
  have hgen : ∀ al : List String,
      filterByRisk df al =
        .ok { columns := df.columns,
              rows := df.rows.filter
                (fun row => pyIsin (cellD df row "Flood_Risk") al) } := by
    intro al
    have hmask : mapExcept (fun row => do
        return pyIsin (← lookupCell df.columns row "Flood_Risk") al) df.rows =
        .ok (df.rows.map (fun row => pyIsin (cellD df row "Flood_Risk") al)) := by
      apply mapExcept_eq_map
      intro row hrow
      obtain ⟨v, hv⟩ :=
        lookupCell_ok df.columns row "Flood_Risk" hcol (le_of_eq (hwf row hrow).symm)
      have hcd : cellD df row "Flood_Risk" = v := by
        unfold cellD
        rw [hv]
        rfl
      rw [hcd, hv]
      rfl
    have hstep : filterByRisk df al =
        .ok { columns := df.columns,
              rows := maskSelect df.rows (df.rows.map
                (fun row => pyIsin (cellD df row "Flood_Risk") al)) } := by
      unfold filterByRisk
      rw [hmask]
      rfl
    rw [hstep, maskSelect_map]
  refine ⟨hgen allowed, ?_⟩
  simpa [pyIsin_nil] using hgen []

/-- A small classified table used to instantiate the filter theorem. -/
def filterDemoDf : DataFrame :=
  { columns := ["Latitude", "Longitude", "Elevation", "Rainfall", "Flood_Risk"],
    rows := [[.num 1, .num 2, .num 5, .num 60, .str "High"],
             [.num 3, .num 4, .num 30, .num 20, .str "Low"]] }

/-- C3, witness: the filter theorem instantiated on a concrete two-row
classified table with selection `{High}`. -/
theorem C3_filter_rows_witness :
    filterByRisk filterDemoDf ["High"] =
      .ok { columns := filterDemoDf.columns,
            rows := filterDemoDf.rows.filter
              (fun row => pyIsin (cellD filterDemoDf row "Flood_Risk") ["High"]) } ∧
    filterByRisk filterDemoDf [] =
      .ok { columns := filterDemoDf.columns, rows := [] } :=
  C3_filter_rows filterDemoDf ["High"] (by unfold DataFrame.WF; decide) (by decide)

/-- A non-empty table whose only absent required column is `Rainfall`. -/
def missingRainfallDf : DataFrame :=
  { columns := ["Latitude", "Longitude", "Elevation"],
    rows := [[.num 40, .num (-74), .num 5]] }

/-- C4: on a non-empty table missing at least one required column,
`main` stops with a validation error naming exactly the required columns
that are absent (so no classification or rendering happens); a table
missing only `Rainfall` reports exactly `Rainfall`. -/
theorem C4_missing_columns (df : DataFrame) (hne : df.rows ≠ [])
    (hmiss : missingCols df.columns ≠ []) :
    processData df = .missingColumns (missingCols df.columns) ∧
    (∀ c, c ∈ missingCols df.columns ↔ c ∈ requiredCols ∧ c ∉ df.columns) ∧
    processData missingRainfallDf = .missingColumns ["Rainfall"] := by
  refine ⟨?_, ?_, by decide⟩
  · simp [processData, hne, hmiss, List.isEmpty_iff]
  · intro c
    simp [missingCols, List.mem_filter]

/-- C4, witness: instantiated on the concrete table missing `Rainfall`. -/
theorem C4_missing_columns_witness :
    processData missingRainfallDf =
      .missingColumns (missingCols missingRainfallDf.columns) ∧
    (∀ c, c ∈ missingCols missingRainfallDf.columns ↔
      c ∈ requiredCols ∧ c ∉ missingRainfallDf.columns) ∧
    processData missingRainfallDf = .missingColumns ["Rainfall"] :=
  C4_missing_columns missingRainfallDf (by decide) (by decide)

/-- A parsed header-only CSV: required columns absent, zero data rows. -/
def headerOnlyDf : DataFrame := { columns := ["Latitude"], rows := [] }

/-- C10: a parsed table with zero rows skips required-column validation
entirely — no MissingColumns error can be reported — and the app falls
through to the no-data instructions screen. -/
theorem C10_empty_skips_validation (df : DataFrame) (h : df.rows = []) :
    processData df = .instructions ∧
    ∀ cols, processData df ≠ .missingColumns cols := by
  have h1 : processData df = .instructions := by simp [processData, h]
  exact ⟨h1, fun cols => by simp [h1]⟩

/-- C10, witness: a header-only table missing three required columns still
renders the instructions screen, not a validation error. -/
theorem C10_empty_skips_validation_witness :
    processData headerOnlyDf = .instructions ∧
    ∀ cols, processData headerOnlyDf ≠ .missingColumns cols :=
  C10_empty_skips_validation headerOnlyDf rfl

/-- An upload that passes column validation but has a non-numeric
`Elevation` value. -/
def badUploadDf : DataFrame :=
  { columns := ["Latitude", "Longitude", "Elevation", "Rainfall"],
    rows := [[.num 40, .num (-74), .str "abc", .num 60]] }

/-- Comparing a string elevation with `10` raises immediately. -/
theorem classify_str_elevation (s : String) (v : PyVal) :
    calculate_flood_risk (.str s) v = .error () := rfl

/-- C8, counterexample: an upload whose `Elevation` column holds the
non-numeric value `"abc"` passes the column validation (`missingCols` is
empty) and then crashes with an uncaught `TypeError` during the
classification `apply` — it is not rejected by any validation error. -/
theorem C8_counterexample :
    missingCols badUploadDf.columns = [] ∧
    processData badUploadDf = .exception ∧
    Outcome.exception ≠ Outcome.missingColumns [] ∧
    Outcome.exception ≠ Outcome.instructions := by
  decide

/-- C8, amended: numeric-parse failures are not validated; any table that
passes column validation and carries a string `Elevation` cell makes the
row-wise classification raise, so the render cycle ends in an uncaught
exception rather than a handled validation error. -/
theorem C8_string_elevation_crashes (df : DataFrame)
    (hmiss : missingCols df.columns = [])
    (hbad : ∃ row ∈ df.rows, ∃ s,
      lookupCell df.columns row "Elevation" = .ok (.str s)) :
    processData df = .exception := by
  obtain ⟨row, hrow, s, hs⟩ := hbad
  have hne : df.rows ≠ [] := by
    intro h
    rw [h] at hrow
    simp at hrow
  have hrowerr : classifyRow df.columns row = .error () := by
    unfold classifyRow
    rw [hs]
    cases hr : lookupCell df.columns row "Rainfall" with
    | error e => cases e; rfl
    | ok v => exact classify_str_elevation s v
  have herr : classifyDf df = .error () := by
    unfold classifyDf
    rw [mapExcept_error (classifyRow df.columns) df.rows ⟨row, hrow, hrowerr⟩]
    rfl
  simp [processData, hne, hmiss, herr, List.isEmpty_iff]

/-- C8, witness for the amended statement: the concrete bad upload. -/
theorem C8_string_elevation_crashes_witness :
    processData badUploadDf = .exception :=
  C8_string_elevation_crashes badUploadDf (by decide)
    ⟨[.num 40, .num (-74), .str "abc", .num 60], by decide, "abc", rfl⟩

/-- Round a rational to the nearest integer, ties to even — the rounding
used by `np.round` / `DataFrame.round`. -/
def roundHalfEven (q : ℚ) : ℤ :=
  if q - ⌊q⌋ < 1 / 2 then ⌊q⌋
  else if 1 / 2 < q - ⌊q⌋ then ⌊q⌋ + 1
  else if 2 ∣ ⌊q⌋ then ⌊q⌋ else ⌊q⌋ + 1

/-- `np.round(q, k)`: round to `k` decimal places, ties to even. -/
def npRound (q : ℚ) (k : ℕ) : ℚ := (roundHalfEven (q * 10 ^ k) : ℚ) / 10 ^ k

theorem roundHalfEven_intCast (z : ℤ) : roundHalfEven (z : ℚ) = z := by
  unfold roundHalfEven
  norm_num

theorem npRound_int (q : ℚ) (z : ℤ) (k : ℕ) (h : q * 10 ^ k = (z : ℚ)) :
    npRound q k = (z : ℚ) / 10 ^ k := by
  unfold npRound
  rw [h, roundHalfEven_intCast]

/-- Round every float cell of a frame, as `df.round(k)`. -/
def roundCell (k : ℕ) : PyVal → PyVal
  | .num q => .num (npRound q k)
  | v => v

/-- `df.round(k)`. -/
def dfRound (df : DataFrame) (k : ℕ) : DataFrame :=
  { columns := df.columns,
    rows := df.rows.map (fun row => row.map (roundCell k)) }

/-- The global numpy RNG state: the seed last installed by
`np.random.seed` and the position already consumed from its stream. -/
structure RNGState where
  seed : ℕ
  pos : ℕ
deriving DecidableEq, Repr

/-- The deterministic draw streams behind `np.random`: for a given seed,
position `i` of the normal (resp. uniform) stream always yields the same
value.  The concrete Mersenne-Twister values are abstracted; determinism
and draw order are what the embedding captures. -/
structure NumpyGen where
  normalStd : ℕ → ℕ → ℚ
  uniformStd : ℕ → ℕ → ℚ

/-- `np.random.seed(s)`: discard the previous state entirely. -/
def npSeed (s : ℕ) (_ : RNGState) : RNGState := ⟨s, 0⟩

/-- `np.random.normal(mu, sigma, n)`: `n` draws from the seeded stream,
advancing the position. -/
def npNormal (g : NumpyGen) (mu sigma : ℚ) (n : ℕ) (st : RNGState) :
    List ℚ × RNGState :=
  ((List.range n).map (fun i => mu + sigma * g.normalStd st.seed (st.pos + i)),
    ⟨st.seed, st.pos + n⟩)

/-- `np.random.uniform(lo, hi, n)`: `n` draws from the seeded stream,
advancing the position. -/
def npUniform (g : NumpyGen) (lo hi : ℚ) (n : ℕ) (st : RNGState) :
    List ℚ × RNGState :=
  ((List.range n).map (fun i => lo + (hi - lo) * g.uniformStd st.seed (st.pos + i)),
    ⟨st.seed, st.pos + n⟩)

/-- `generate_sample_data()` from `flood_risk_app.py`: seed 42, then 50
latitudes, 50 longitudes, 50 elevations, 50 rainfalls in that order,
rounded to 6 decimal places. -/
def generate_sample_data (g : NumpyGen) (st0 : RNGState) :
    DataFrame × RNGState :=
  let st1 := npSeed 42 st0
  let lat := npNormal g 40.7128 0.1 50 st1
  let lon := npNormal g (-74.0060) 0.1 50 lat.2
  let elev := npUniform g 0 50 50 lon.2
  let rain := npUniform g 10 100 50 elev.2
  let raw : DataFrame :=
    { columns := ["Latitude", "Longitude", "Elevation", "Rainfall"],
      rows := (List.range 50).map (fun i =>
        [PyVal.num (lat.1.getD i 0), PyVal.num (lon.1.getD i 0),
         PyVal.num (elev.1.getD i 0), PyVal.num (rain.1.getD i 0)]) }
  (dfRound raw 6, rain.2)

/-- C5: `generate_sample_data` reseeds with 42 and therefore returns the
same 50-row frame regardless of the prior RNG state; row `i` takes its
latitude from stream position `i`, longitude from `50 + i`, elevation from
`100 + i` and rainfall from `150 + i` (Latitude stream first, then
Longitude, then Elevation, then Rainfall), each rounded to 6 decimals. -/
theorem C5_generate_deterministic (g : NumpyGen) (st st' : RNGState) :
    (generate_sample_data g st).1 = (generate_sample_data g st').1 ∧
    (generate_sample_data g st).1.columns =
      ["Latitude", "Longitude", "Elevation", "Rainfall"] ∧
    (generate_sample_data g st).1.rows.length = 50 ∧
    (∀ i, i < 50 →
      (generate_sample_data g st).1.rows.getD i [] =
        [PyVal.num (npRound (40.7128 + 0.1 * g.normalStd 42 i) 6),
         PyVal.num (npRound (-74.0060 + 0.1 * g.normalStd 42 (50 + i)) 6),
         PyVal.num (npRound (0 + (50 - 0) * g.uniformStd 42 (100 + i)) 6),
         PyVal.num (npRound (10 + (100 - 10) * g.uniformStd 42 (150 + i)) 6)]) := by
  refine ⟨rfl, rfl, ?_, ?_⟩
  · simp [generate_sample_data, dfRound, npSeed, npNormal, npUniform]
  · intro i hi
    simp [generate_sample_data, dfRound, npSeed, npNormal, npUniform, roundCell,
      List.getD_eq_getElem?_getD, List.getElem?_map, List.getElem?_range, hi]

/-- C5, witness: instantiated at a concrete generator and two different
prior RNG states. -/
theorem C5_generate_deterministic_witness :
    (generate_sample_data ⟨fun _ i => i, fun _ i => i⟩ ⟨0, 0⟩).1 =
      (generate_sample_data ⟨fun _ i => i, fun _ i => i⟩ ⟨7, 3⟩).1 ∧
    (generate_sample_data ⟨fun _ i => i, fun _ i => i⟩ ⟨0, 0⟩).1.columns =
      ["Latitude", "Longitude", "Elevation", "Rainfall"] ∧
    (generate_sample_data ⟨fun _ i => i, fun _ i => i⟩ ⟨0, 0⟩).1.rows.length = 50 ∧
    (∀ i, i < 50 →
      (generate_sample_data ⟨fun _ i => i, fun _ i => i⟩ ⟨0, 0⟩).1.rows.getD i [] =
        [PyVal.num (npRound (40.7128 + 0.1 * (i : ℚ)) 6),
         PyVal.num (npRound (-74.0060 + 0.1 * ((50 + i : ℕ) : ℚ)) 6),
         PyVal.num (npRound (0 + (50 - 0) * ((100 + i : ℕ) : ℚ)) 6),
         PyVal.num (npRound (10 + (100 - 10) * ((150 + i : ℕ) : ℚ)) 6)]) :=
  C5_generate_deterministic ⟨fun _ i => i, fun _ i => i⟩ ⟨0, 0⟩ ⟨7, 3⟩

/-- The `Flood_Risk` column of a frame as a list of cell values. -/
def floodRiskColumn (df : DataFrame) : List PyVal :=
  df.rows.map (fun row => cellD df row "Flood_Risk")

/-- `df['Flood_Risk'].value_counts()` evaluated at one label
(`risk_counts.get(label, 0)`). -/
def riskCount (df : DataFrame) (label : String) : ℕ :=
  (floodRiskColumn df).count (PyVal.str label)

/-- `(risk_counts / len(df) * 100).round(1)` evaluated at one label. -/
def riskPercentage (df : DataFrame) (label : String) : ℚ :=
  npRound ((riskCount df label : ℚ) / (df.rows.length : ℚ) * 100) 1

/-- Ten raw observations: 3 classify High, 4 Medium, 3 Low. -/
def tenRowDf : DataFrame :=
  { columns := ["Latitude", "Longitude", "Elevation", "Rainfall"],
    rows := [[.num 1, .num 1, .num 5, .num 60],
             [.num 2, .num 1, .num 5, .num 60],
             [.num 3, .num 1, .num 5, .num 60],
             [.num 4, .num 1, .num 15, .num 40],
             [.num 5, .num 1, .num 15, .num 40],
             [.num 6, .num 1, .num 15, .num 40],
             [.num 7, .num 1, .num 15, .num 40],
             [.num 8, .num 1, .num 30, .num 20],
             [.num 9, .num 1, .num 30, .num 20],
             [.num 10, .num 1, .num 30, .num 20]] }

/-- The table `main` renders for `tenRowDf`. -/
def tenRowClassifiedDf : DataFrame :=
  { columns := ["Latitude", "Longitude", "Elevation", "Rainfall", "Flood_Risk"],
    rows := [[.num 1, .num 1, .num 5, .num 60, .str "High"],
             [.num 2, .num 1, .num 5, .num 60, .str "High"],
             [.num 3, .num 1, .num 5, .num 60, .str "High"],
             [.num 4, .num 1, .num 15, .num 40, .str "Medium"],
             [.num 5, .num 1, .num 15, .num 40, .str "Medium"],
             [.num 6, .num 1, .num 15, .num 40, .str "Medium"],
             [.num 7, .num 1, .num 15, .num 40, .str "Medium"],
             [.num 8, .num 1, .num 30, .num 20, .str "Low"],
             [.num 9, .num 1, .num 30, .num 20, .str "Low"],
             [.num 10, .num 1, .num 30, .num 20, .str "Low"]] }

/-- C9: the reported risk-distribution percentage of a label is its count
divided by the row total, times 100, rounded to one decimal; on the
ten-row example with 3 High / 4 Medium / 3 Low classified through the real
pipeline, the reported percentages are 30.0%, 40.0% and 30.0%. -/
theorem C9_risk_percentages :
    (∀ df label, riskPercentage df label =
      npRound ((riskCount df label : ℚ) * 100 / (df.rows.length : ℚ)) 1) ∧
    processData tenRowDf = .rendered tenRowClassifiedDf ∧
    riskCount tenRowClassifiedDf "High" = 3 ∧
    riskCount tenRowClassifiedDf "Medium" = 4 ∧
    riskCount tenRowClassifiedDf "Low" = 3 ∧
    riskPercentage tenRowClassifiedDf "High" = 30 ∧
    riskPercentage tenRowClassifiedDf "Medium" = 40 ∧
    riskPercentage tenRowClassifiedDf "Low" = 30 := by
  refine ⟨fun df label => ?_, by decide, by decide, by decide, by decide, ?_, ?_, ?_⟩
  · unfold riskPercentage
    rw [div_mul_eq_mul_div]
  · show riskPercentage tenRowClassifiedDf "High" = 30
    unfold riskPercentage
    rw [show riskCount tenRowClassifiedDf "High" = 3 from by decide,
      show tenRowClassifiedDf.rows.length = 10 from rfl,
      npRound_int _ 300 1 (by norm_num)]
    norm_num
  · show riskPercentage tenRowClassifiedDf "Medium" = 40
    unfold riskPercentage
    rw [show riskCount tenRowClassifiedDf "Medium" = 4 from by decide,
      show tenRowClassifiedDf.rows.length = 10 from rfl,
      npRound_int _ 400 1 (by norm_num)]
    norm_num
  · show riskPercentage tenRowClassifiedDf "Low" = 30
    unfold riskPercentage
    rw [show riskCount tenRowClassifiedDf "Low" = 3 from by decide,
      show tenRowClassifiedDf.rows.length = 10 from rfl,
      npRound_int _ 300 1 (by norm_num)]
    norm_num

/-- The character of a decimal digit. -/
def digitChar : ℕ → Char
  | 0 => '0'
  | 1 => '1'
  | 2 => '2'
  | 3 => '3'
  | 4 => '4'
  | 5 => '5'
  | 6 => '6'
  | 7 => '7'
  | 8 => '8'
  | _ => '9'

/-- The value of a decimal digit character. -/
def digitVal (c : Char) : Option ℕ :=
  if c = '0' then some 0
  else if c = '1' then some 1
  else if c = '2' then some 2
  else if c = '3' then some 3
  else if c = '4' then some 4
  else if c = '5' then some 5
  else if c = '6' then some 6
  else if c = '7' then some 7
  else if c = '8' then some 8
  else if c = '9' then some 9
  else none

/-- Big-endian decimal digit characters of a natural number. -/
def natToChars (n : ℕ) : List Char :=
  if n = 0 then ['0'] else ((Nat.digits 10 n).map digitChar).reverse

/-- Accumulating decimal parser. -/
def parseDigitsAux : ℕ → List Char → Option ℕ
  | acc, [] => some acc
  | acc, c :: cs =>
      match digitVal c with
      | some d => parseDigitsAux (acc * 10 + d) cs
      | none => none

/-- Parse a non-empty string of decimal digits. -/
def parseNatChars (cs : List Char) : Option ℕ :=
  if cs.isEmpty then none else parseDigitsAux 0 cs

theorem digitVal_digitChar (d : ℕ) (hd : d < 10) :
    digitVal (digitChar d) = some d := by
  interval_cases d <;> rfl

theorem digitChar_ne (d : ℕ) (hd : d < 10) :
    digitChar d ≠ ',' ∧ digitChar d ≠ '\n' ∧ digitChar d ≠ '.' ∧
      digitChar d ≠ '-' := by
  interval_cases d <;> exact ⟨by decide, by decide, by decide, by decide⟩

theorem parseDigitsAux_digits (ds : List ℕ) (hds : ∀ d ∈ ds, d < 10) (acc : ℕ) :
    parseDigitsAux acc (ds.map digitChar) =
      some (ds.foldl (fun a d => a * 10 + d) acc) := by
  induction ds generalizing acc with
  | nil => rfl
  | cons d ds ih =>
      rw [List.map_cons]
      simp only [parseDigitsAux, digitVal_digitChar d (hds d (List.mem_cons_self d ds))]
      rw [ih (fun x hx => hds x (List.mem_cons_of_mem d hx))]
      rfl

theorem foldl_reverse_digits (ds : List ℕ) (acc : ℕ) :
    ds.reverse.foldl (fun a d => a * 10 + d) acc =
      acc * 10 ^ ds.length + Nat.ofDigits 10 ds := by
  induction ds generalizing acc with
  | nil => simp
  | cons d ds ih =>
      rw [List.reverse_cons, List.foldl_append, ih]
      simp only [List.foldl, Nat.ofDigits_cons, List.length_cons, pow_succ]
      ring

theorem parseNatChars_natToChars (n : ℕ) : parseNatChars (natToChars n) = some n := by
  unfold natToChars parseNatChars
  by_cases h : n = 0
  · subst h
    rfl
  · rw [if_neg h]
    have hne : Nat.digits 10 n ≠ [] := Nat.digits_ne_nil_iff_ne_zero.mpr h
    have hempty : (((Nat.digits 10 n).map digitChar).reverse).isEmpty = false := by
      simp [hne]
    simp only [hempty, Bool.false_eq_true, if_false]
    rw [← List.map_reverse,
      parseDigitsAux_digits (Nat.digits 10 n).reverse
        (fun d hd => Nat.digits_lt_base (by norm_num) (List.mem_reverse.mp hd)) 0,
      foldl_reverse_digits]
    simp [Nat.ofDigits_digits]

theorem natToChars_mem (n : ℕ) :
    ∀ c ∈ natToChars n, ∃ d, d < 10 ∧ c = digitChar d := by
  intro c hc
  unfold natToChars at hc
  by_cases h : n = 0
  · rw [if_pos h] at hc
    exact ⟨0, by norm_num, by simpa using hc⟩
  · rw [if_neg h] at hc
    obtain ⟨d, hd, rfl⟩ := List.mem_map.mp (List.mem_reverse.mp hc)
    exact ⟨d, Nat.digits_lt_base (by norm_num) hd, rfl⟩

theorem natToChars_safe (n : ℕ) :
    ∀ c ∈ natToChars n,
      c ≠ ',' ∧ c ≠ '\n' ∧ c ≠ '.' ∧ c ≠ '-' := by
  intro c hc
  obtain ⟨d, hd, rfl⟩ := natToChars_mem n c hc
  exact digitChar_ne d hd

theorem natToChars_ne_nil (n : ℕ) : natToChars n ≠ [] := by
  unfold natToChars
  by_cases h : n = 0
  · simp [h]
  · simp [h, Nat.digits_ne_nil_iff_ne_zero.mpr h]

theorem natToChars_length_le (n k : ℕ) (hk : 1 ≤ k) (h : n < 10 ^ k) :
    (natToChars n).length ≤ k := by
  unfold natToChars
  by_cases h0 : n = 0
  · simpa [h0] using hk
  · rw [if_neg h0]
    simp only [List.length_reverse, List.length_map]
    rw [Nat.digits_len 10 n (by norm_num) h0]
    have := Nat.log_lt_of_lt_pow h0 h
    omega

/-- Number of times `p` divides `n`, with explicit fuel (`fuel = n` is
always enough). -/
def pAdicCountAux (p : ℕ) : ℕ → ℕ → ℕ
  | 0, _ => 0
  | fuel + 1, n =>
      if 2 ≤ p ∧ n ≠ 0 ∧ n % p = 0 then pAdicCountAux p fuel (n / p) + 1 else 0

/-- Decimal places for an exact rendering of a fraction with denominator
`den` (exact whenever `den` divides a power of ten), and at least 1:
float repr always prints at least one decimal, as in `30.0`. -/
def decExp (den : ℕ) : ℕ :=
  max 1 (max (pAdicCountAux 2 den den) (pAdicCountAux 5 den den))

/-- `q` has a finite decimal expansion with at most `decExp q.den`
decimals.  The exact value of every IEEE float is of this form. -/
def isDecimal (q : ℚ) : Bool := 10 ^ decExp q.den % q.den == 0

theorem isDecimal_dvd {q : ℚ} (h : isDecimal q = true) :
    q.den ∣ 10 ^ decExp q.den := by
  unfold isDecimal at h
  exact Nat.dvd_of_mod_eq_zero (by simpa using h)

/-- `m / 10^k` rendered in decimal with exactly `k` digits after the
point. -/
def renderScaled (m k : ℕ) : List Char :=
  natToChars (m / 10 ^ k) ++ '.' ::
    (List.replicate (k - (natToChars (m % 10 ^ k)).length) '0' ++
      natToChars (m % 10 ^ k))

/-- Exact decimal rendering of a decimal rational: optional sign, integer
part, decimal point, fractional digits (Python float `repr` style:
`30.0`, `-74.006`, `40.7128`). -/
def renderNum (q : ℚ) : List Char :=
  (if q < 0 then ['-'] else []) ++
    renderScaled (q.num.natAbs * (10 ^ decExp q.den / q.den)) (decExp q.den)

/-- Parse an unsigned decimal numeral, optionally with a fractional
part. -/
def parseUnsigned (cs : List Char) : Option ℚ :=
  match cs.splitOn '.' with
  | [ip] => (parseNatChars ip).map (fun n => (n : ℚ))
  | [ip, fp] =>
      match parseNatChars ip, parseNatChars fp with
      | some a, some b => some ((a : ℚ) + (b : ℚ) / 10 ^ fp.length)
      | _, _ => none
  | _ => none

/-- Numeric parsing of one cell, as `pd.read_csv` float conversion. -/
def parseNum (cs : List Char) : Option ℚ :=
  match cs with
  | [] => none
  | c :: rest =>
      if c = '-' then (parseUnsigned rest).map (fun q => -q)
      else parseUnsigned (c :: rest)

theorem parseDigitsAux_pad (z : ℕ) (cs : List Char) :
    parseDigitsAux 0 (List.replicate z '0' ++ cs) = parseDigitsAux 0 cs := by
  induction z with
  | zero => rfl
  | succ z ih =>
      rw [List.replicate_succ, List.cons_append]
      exact ih

theorem parseNatChars_eq_aux (cs : List Char) (h : cs ≠ []) :
    parseNatChars cs = parseDigitsAux 0 cs := by
  unfold parseNatChars
  simp [h]

theorem parseUnsigned_renderScaled (m k : ℕ) (hk : 1 ≤ k) :
    parseUnsigned (renderScaled m k) = some ((m : ℚ) / 10 ^ k) := by
  have hfd_ne : natToChars (m % 10 ^ k) ≠ [] := natToChars_ne_nil _
  have hfrac_ne :
      List.replicate (k - (natToChars (m % 10 ^ k)).length) '0' ++
        natToChars (m % 10 ^ k) ≠ [] := by
    simp [hfd_ne]
  have hsplit : (renderScaled m k).splitOn '.' =
      [natToChars (m / 10 ^ k),
       List.replicate (k - (natToChars (m % 10 ^ k)).length) '0' ++
         natToChars (m % 10 ^ k)] := by
    have hform : renderScaled m k =
        ['.'].intercalate
          [natToChars (m / 10 ^ k),
           List.replicate (k - (natToChars (m % 10 ^ k)).length) '0' ++
             natToChars (m % 10 ^ k)] := by
      simp [renderScaled, List.intercalate]
    rw [hform]
    apply List.splitOn_intercalate
    · intro l hl
      rcases List.mem_pair.mp hl with rfl | rfl
      · intro hdot
        exact (natToChars_safe _ '.' hdot).2.2.1 rfl
      · intro hdot
        rcases List.mem_append.mp hdot with hrep | hfd
        · exact absurd (List.eq_of_mem_replicate hrep) (by decide)
        · exact (natToChars_safe _ '.' hfd).2.2.1 rfl
    · simp
  unfold parseUnsigned
  rw [hsplit]
  dsimp only
  have hip : parseNatChars (natToChars (m / 10 ^ k)) = some (m / 10 ^ k) :=
    parseNatChars_natToChars _
  have hfp : parseNatChars
      (List.replicate (k - (natToChars (m % 10 ^ k)).length) '0' ++
        natToChars (m % 10 ^ k)) = some (m % 10 ^ k) := by
    rw [parseNatChars_eq_aux _ hfrac_ne, parseDigitsAux_pad,
      ← parseNatChars_eq_aux _ hfd_ne]
    exact parseNatChars_natToChars _
  rw [hip, hfp]
  dsimp only
  have hlen : (List.replicate (k - (natToChars (m % 10 ^ k)).length) '0' ++
      natToChars (m % 10 ^ k)).length = k := by
    have hle : (natToChars (m % 10 ^ k)).length ≤ k :=
      natToChars_length_le _ k hk (Nat.mod_lt m (by positivity))
    simp only [List.length_append, List.length_replicate]
    omega
  rw [hlen]
  have harith : m / 10 ^ k * 10 ^ k + m % 10 ^ k = m := by
    have h := Nat.div_add_mod m (10 ^ k)
    rw [Nat.mul_comm] at h
    exact h
  field_simp
  exact_mod_cast harith

theorem abs_num_cast (q : ℚ) : ((q.num.natAbs : ℕ) : ℚ) = |q| * q.den := by
  have hden : ((q.den : ℕ) : ℚ) ≠ 0 := by
    exact_mod_cast q.den_nz
  have : |(q.num : ℚ)| = |q| * q.den := by
    rw [show (q.num : ℚ) = q * q.den from by
      field_simp [Rat.num_div_den q]]
    rw [abs_mul]
    congr 1
    exact abs_of_nonneg (by positivity)
  rw [← this]
  simp [Int.cast_natAbs]

theorem renderScaled_value (q : ℚ) (hq : q.den ∣ 10 ^ decExp q.den) :
    ((q.num.natAbs * (10 ^ decExp q.den / q.den) : ℕ) : ℚ) =
      |q| * 10 ^ decExp q.den := by
  have hden : ((q.den : ℕ) : ℚ) ≠ 0 := by
    exact_mod_cast q.den_nz
  rw [Nat.cast_mul, Nat.cast_div hq hden, abs_num_cast]
  push_cast
  field_simp
  ring

theorem parseNum_renderNum (q : ℚ) (hq : isDecimal q = true) :
    parseNum (renderNum q) = some q := by
  have hdvd := isDecimal_dvd hq
  have hk : 1 ≤ decExp q.den := le_max_left 1 _
  have hval := parseUnsigned_renderScaled
    (q.num.natAbs * (10 ^ decExp q.den / q.den)) (decExp q.den) hk
  rw [renderScaled_value q hdvd] at hval
  have habs : (|q| * 10 ^ decExp q.den) / 10 ^ decExp q.den = |q| := by
    field_simp
  by_cases hneg : q < 0
  · have hform : renderNum q =
        '-' :: renderScaled (q.num.natAbs * (10 ^ decExp q.den / q.den))
          (decExp q.den) := by
      simp [renderNum, hneg]
    rw [hform]
    unfold parseNum
    dsimp only
    rw [if_pos rfl, hval]
    simp only [Option.map_some']
    rw [habs, abs_of_neg hneg, neg_neg]
  · obtain ⟨c, cs', hcs⟩ := List.exists_cons_of_ne_nil
      (natToChars_ne_nil (q.num.natAbs * (10 ^ decExp q.den / q.den) /
        10 ^ decExp q.den))
    have hcmem : c ∈ natToChars (q.num.natAbs * (10 ^ decExp q.den / q.den) /
        10 ^ decExp q.den) := by
      rw [hcs]
      exact List.mem_cons_self c cs'
    have hcdash : c ≠ '-' := (natToChars_safe _ c hcmem).2.2.2
    have hform : renderNum q =
        c :: (cs' ++ '.' ::
          (List.replicate (decExp q.den -
            (natToChars (q.num.natAbs * (10 ^ decExp q.den / q.den) %
              10 ^ decExp q.den)).length) '0' ++
            natToChars (q.num.natAbs * (10 ^ decExp q.den / q.den) %
              10 ^ decExp q.den))) := by
      simp [renderNum, hneg, renderScaled, hcs]
    rw [hform]
    unfold parseNum
    dsimp only
    rw [if_neg hcdash]
    have hback : c :: (cs' ++ '.' ::
        (List.replicate (decExp q.den -
          (natToChars (q.num.natAbs * (10 ^ decExp q.den / q.den) %
            10 ^ decExp q.den)).length) '0' ++
          natToChars (q.num.natAbs * (10 ^ decExp q.den / q.den) %
            10 ^ decExp q.den))) =
        renderScaled (q.num.natAbs * (10 ^ decExp q.den / q.den))
          (decExp q.den) := by
      simp [renderScaled, hcs]
    rw [hback, hval, habs, abs_of_nonneg (le_of_not_lt hneg)]

/-- Render one cell as `DataFrame.to_csv` does: floats in decimal form,
NaN as an empty field, strings verbatim. -/
def renderCell : PyVal → List Char
  | .num q => renderNum q
  | .nan => []
  | .str s => s.toList

/-- The structured form of `df.to_csv(index=False)`: a header row of
column names followed by one line of rendered cells per data row, and no
index column. -/
def toCsvTable (df : DataFrame) : List (List (List Char)) :=
  (df.columns.map String.toList) :: df.rows.map (fun row => row.map renderCell)

/-- The emitted bytes: fields comma-separated, every line newline
terminated. -/
def csvBytes (table : List (List (List Char))) : List Char :=
  ['\n'].intercalate (table.map (fun fields => [','].intercalate fields)) ++
    ['\n']

/-- The CSV table behind the results download button: classify, filter,
serialize the filtered view; `none` when no download is offered. -/
def exportedTable (df : DataFrame) (allowed : List String) :
    Option (List (List (List Char))) :=
  match processData df with
  | .rendered c =>
      match filterByRisk c allowed with
      | .ok f => if f.rows.isEmpty then none else some (toCsvTable f)
      | .error _ => none
  | _ => none

theorem bindE_ok {α β : Type} (a : α) (f : α → Except Unit β) :
    (Except.ok a >>= f) = f a := rfl

theorem bindE_error {α β : Type} (f : α → Except Unit β) :
    ((Except.error () : Except Unit α) >>= f) = Except.error () := rfl

theorem processData_rendered (df c : DataFrame)
    (h : processData df = .rendered c) : classifyDf df = .ok c := by
  unfold processData at h
  split at h
  · exact absurd h (by simp)
  · split at h
    · split at h
      · rename_i heq
        rw [heq]
        injection h with h'
        rw [h']
      · exact absurd h (by simp)
    · exact absurd h (by simp)

theorem classifyDf_ok_columns (df c : DataFrame) (h : classifyDf df = .ok c)
    (hno : df.columns.contains "Flood_Risk" = false) :
    c.columns = df.columns ++ ["Flood_Risk"] := by
  unfold classifyDf at h
  cases hm : mapExcept (classifyRow df.columns) df.rows with
  | error e =>
      cases e
      rw [hm, bindE_error] at h
      exact Except.noConfusion h
  | ok risks =>
      rw [hm, bindE_ok] at h
      have hset := Except.ok.inj h
      rw [← hset]
      have hno' : "Flood_Risk" ∉ df.columns := by simpa using hno
      simp [setColumn, hno']

theorem filterByRisk_ok_columns (df out : DataFrame) (allowed : List String)
    (h : filterByRisk df allowed = .ok out) : out.columns = df.columns := by
  unfold filterByRisk at h
  cases hm : mapExcept (fun row => do
      return pyIsin (← lookupCell df.columns row "Flood_Risk") allowed)
      df.rows with
  | error e =>
      cases e
      rw [hm, bindE_error] at h
      exact Except.noConfusion h
  | ok mask =>
      rw [hm, bindE_ok] at h
      have hset := Except.ok.inj h
      rw [← hset]

/-- A five-column upload: the four required columns plus `Notes`. -/
def extraColsDf : DataFrame :=
  { columns := ["Latitude", "Longitude", "Elevation", "Rainfall", "Notes"],
    rows := [[.num 1, .num 2, .num 5, .num 60, .num 7]] }

/-- C7, counterexample: extra uploaded columns are not ignored — they are
carried through classification, filtering and export, so the exported
header is Latitude, Longitude, Elevation, Rainfall, Notes, Flood_Risk
rather than exactly the five claimed columns. -/
theorem C7_extra_columns_counterexample :
    (exportedTable extraColsDf ["High", "Medium", "Low"]).map
        (fun t => t.headD []) =
      some ((["Latitude", "Longitude", "Elevation", "Rainfall", "Notes",
        "Flood_Risk"]).map String.toList) ∧
    (["Latitude", "Longitude", "Elevation", "Rainfall", "Notes",
        "Flood_Risk"]).map String.toList ≠
      (["Latitude", "Longitude", "Elevation", "Rainfall",
        "Flood_Risk"]).map String.toList := by
  exact ⟨by decide, by decide⟩

/-- C7, amended: the exported CSV starts with a header row and has one
line per filtered row with no index column; its columns are the input
table's columns, in order, with `Flood_Risk` appended — which is exactly
Latitude, Longitude, Elevation, Rainfall, Flood_Risk precisely when the
input has exactly the four required columns. -/
theorem C7_export_columns (df c fdf : DataFrame) (allowed : List String)
    (hc : processData df = .rendered c)
    (hno : df.columns.contains "Flood_Risk" = false)
    (hf : filterByRisk c allowed = .ok fdf) :
    (toCsvTable fdf).headD [] =
      (df.columns ++ ["Flood_Risk"]).map String.toList ∧
    (toCsvTable fdf).length = fdf.rows.length + 1 ∧
    (df.columns = requiredCols →
      (toCsvTable fdf).headD [] =
        (["Latitude", "Longitude", "Elevation", "Rainfall",
          "Flood_Risk"]).map String.toList) := by
  have h1 := classifyDf_ok_columns df c (processData_rendered df c hc) hno
  have h2 := filterByRisk_ok_columns c fdf allowed hf
  have hcols : fdf.columns = df.columns ++ ["Flood_Risk"] := h2.trans h1
  refine ⟨?_, ?_, ?_⟩
  · simp [toCsvTable, hcols]
  · simp [toCsvTable]
  · intro hreq
    simp [toCsvTable, hcols, hreq, requiredCols]

/-- A clean upload with exactly the four required columns. -/
def cleanUploadDf : DataFrame :=
  { columns := ["Latitude", "Longitude", "Elevation", "Rainfall"],
    rows := [[.num 1, .num 2, .num 5, .num 60]] }

/-- The classified frame `main` computes for `cleanUploadDf`. -/
def cleanClassifiedDf : DataFrame :=
  { columns := ["Latitude", "Longitude", "Elevation", "Rainfall",
      "Flood_Risk"],
    rows := [[.num 1, .num 2, .num 5, .num 60, .str "High"]] }

/-- C7, witness: the amended export theorem instantiated on a concrete
clean upload. -/
theorem C7_export_columns_witness :
    (toCsvTable cleanClassifiedDf).headD [] =
      (cleanUploadDf.columns ++ ["Flood_Risk"]).map String.toList ∧
    (toCsvTable cleanClassifiedDf).length =
      cleanClassifiedDf.rows.length + 1 ∧
    (cleanUploadDf.columns = requiredCols →
      (toCsvTable cleanClassifiedDf).headD [] =
        (["Latitude", "Longitude", "Elevation", "Rainfall",
          "Flood_Risk"]).map String.toList) :=
  C7_export_columns cleanUploadDf cleanClassifiedDf cleanClassifiedDf
    ["High", "Medium", "Low"] (by decide) (by decide) rfl

/-- Column type inference as in `pd.read_csv`: a column whose fields are
all empty or numeric becomes a float column (empty fields are NaN);
otherwise it is an object column of strings (empty fields still NaN). -/
def inferColumn (fields : List (List Char)) : List PyVal :=
  if fields.all (fun f => f.isEmpty || (parseNum f).isSome) then
    fields.map (fun f =>
      if f.isEmpty then PyVal.nan else .num ((parseNum f).getD 0))
  else
    fields.map (fun f =>
      if f.isEmpty then PyVal.nan else .str (String.mk f))

/-- Split emitted CSV bytes back into lines and fields (dropping the
final newline). -/
def splitCsvBytes (cs : List Char) : List (List (List Char)) :=
  ((if cs.getLast? = some '\n' then cs.dropLast else cs).splitOn '\n').map
    (fun line => line.splitOn ',')

/-- `pd.read_csv` on the emitted bytes: a header line then data lines of
the same width; each column is type-inferred independently. -/
def parseCsv (cs : List Char) : Option DataFrame :=
  match splitCsvBytes cs with
  | [] => none
  | header :: rawRows =>
      if rawRows.all (fun r => r.length == header.length) then
        let cols := (List.range header.length).map
          (fun j => inferColumn (rawRows.map (fun r => r.getD j [])))
        some { columns := header.map (fun f => String.mk f),
               rows := (List.range rawRows.length).map
                 (fun i => cols.map (fun col => col.getD i PyVal.nan)) }
      else none

/-- The cell is an honest float cell whose exact value prints exactly. -/
def cellFloatOk : PyVal → Bool
  | .num q => isDecimal q
  | .nan => true
  | .str _ => false

/-- A string field that CSV transport cannot corrupt: non-empty, not
numeric-looking, and free of separators. -/
def safeStrChars (cs : List Char) : Bool :=
  !cs.isEmpty && (parseNum cs).isNone && !cs.contains ',' && !cs.contains '\n'

/-- The cell belongs to an object (string) column and survives CSV. -/
def cellStrOk : PyVal → Bool
  | .num _ => false
  | .nan => true
  | .str s => safeStrChars s.toList

/-- A column round-trips when it is uniformly float or uniformly
string-valued (pandas infers column-wise). -/
def columnOk (cells : List PyVal) : Bool :=
  cells.all cellFloatOk || cells.all cellStrOk

/-- Column `j` of the frame. -/
def colCells (df : DataFrame) (j : ℕ) : List PyVal :=
  df.rows.map (fun r => r.getD j .nan)

/-- Column names survive CSV: at least one column, no separators inside
a name. -/
def headerOk (cols : List String) : Bool :=
  !cols.isEmpty &&
    cols.all (fun c => !c.toList.contains ',' && !c.toList.contains '\n')

theorem renderNum_ne_nil (q : ℚ) : renderNum q ≠ [] := by
  unfold renderNum renderScaled
  intro h
  rcases List.append_eq_nil.mp h with ⟨-, h2⟩
  rcases List.append_eq_nil.mp h2 with ⟨-, h3⟩
  exact List.noConfusion h3

theorem renderNum_safe (q : ℚ) : ∀ c ∈ renderNum q, c ≠ ',' ∧ c ≠ '\n' := by
  intro c hc
  unfold renderNum at hc
  rcases List.mem_append.mp hc with hsign | hrest
  · have hc' : c = '-' := by
      by_cases hq : q < 0
      · simpa [hq] using hsign
      · simp [hq] at hsign
    subst hc'
    exact ⟨by decide, by decide⟩
  · unfold renderScaled at hrest
    rcases List.mem_append.mp hrest with hint | hdotrest
    · exact ⟨(natToChars_safe _ c hint).1, (natToChars_safe _ c hint).2.1⟩
    · rcases List.mem_cons.mp hdotrest with rfl | hfrac
      · exact ⟨by decide, by decide⟩
      · rcases List.mem_append.mp hfrac with hrep | hfd
        · have hc' : c = '0' := List.eq_of_mem_replicate hrep
          subst hc'
          exact ⟨by decide, by decide⟩
        · exact ⟨(natToChars_safe _ c hfd).1, (natToChars_safe _ c hfd).2.1⟩

theorem renderCell_safe (cell : PyVal)
    (h : cellFloatOk cell = true ∨ cellStrOk cell = true) :
    ∀ c ∈ renderCell cell, c ≠ ',' ∧ c ≠ '\n' := by
  intro c hc
  cases cell with
  | num q => exact renderNum_safe q c hc
  | nan => simp [renderCell] at hc
  | str s =>
      rcases h with hf | hs
      · simp [cellFloatOk] at hf
      · unfold cellStrOk safeStrChars at hs
        simp only [Bool.and_eq_true, Bool.not_eq_true'] at hs
        have hcomma : (',' : Char) ∉ s.toList := by
          simpa using hs.1.2
        have hnl : ('\n' : Char) ∉ s.toList := by
          simpa using hs.2
        exact ⟨fun hx => hcomma (hx ▸ hc), fun hx => hnl (hx ▸ hc)⟩

theorem mem_intercalate_sep (sep x : Char) (xs : List (List Char))
    (h : x ∈ [sep].intercalate xs) : x = sep ∨ ∃ l ∈ xs, x ∈ l := by
  induction xs with
  | nil => simp [List.intercalate] at h
  | cons a t ih =>
      cases t with
      | nil =>
          simp [List.intercalate] at h
          exact Or.inr ⟨a, List.mem_cons_self a [], h⟩
      | cons b t' =>
          have hexp : ([sep].intercalate (a :: b :: t')) =
              a ++ sep :: ([sep].intercalate (b :: t')) := by
            simp [List.intercalate, List.intersperse_cons_cons]
          rw [hexp] at h
          rcases List.mem_append.mp h with ha | hrest
          · exact Or.inr ⟨a, List.mem_cons_self a _, ha⟩
          · rcases List.mem_cons.mp hrest with rfl | h'
            · exact Or.inl rfl
            · rcases ih h' with hs | ⟨l, hl, hx⟩
              · exact Or.inl hs
              · exact Or.inr ⟨l, List.mem_cons_of_mem a hl, hx⟩

theorem map_range_getD {α : Type} (l : List α) (d : α) :
    (List.range l.length).map (fun j => l.getD j d) = l := by
  apply List.ext_getElem
  · simp
  · intro i h1 h2
    simp [List.getD_eq_getElem?_getD, List.getElem?_eq_getElem, h2]

theorem splitCsvBytes_csvBytes (T : List (List (List Char))) (hT : T ≠ [])
    (hne : ∀ fields ∈ T, fields ≠ [])
    (hsafe : ∀ fields ∈ T, ∀ f ∈ fields,
      (',' : Char) ∉ f ∧ ('\n' : Char) ∉ f) :
    splitCsvBytes (csvBytes T) = T := by
  have hlines_ne : T.map (fun fields => [','].intercalate fields) ≠ [] := by
    simp [hT]
  have hnl : ∀ line ∈ T.map (fun fields => [','].intercalate fields),
      ('\n' : Char) ∉ line := by
    intro line hline hmem
    obtain ⟨fields, hfields, rfl⟩ := List.mem_map.mp hline
    rcases mem_intercalate_sep ',' '\n' fields hmem with h | ⟨f, hf, hx⟩
    · exact absurd h (by decide)
    · exact (hsafe fields hfields f hf).2 hx
  unfold csvBytes splitCsvBytes
  rw [if_pos (List.getLast?_concat _), List.dropLast_concat,
    List.splitOn_intercalate _ '\n' hnl hlines_ne, List.map_map]
  have hpt : ∀ fields ∈ T,
      ((fun line => line.splitOn ',') ∘
        (fun fields => [','].intercalate fields)) fields = id fields := by
    intro fields hf
    exact List.splitOn_intercalate fields ','
      (fun l hl => (hsafe fields hf l hl).1) (hne fields hf)
  rw [List.map_congr_left hpt, List.map_id]

theorem inferColumn_renderCell (cells : List PyVal)
    (hok : columnOk cells = true) :
    inferColumn (cells.map renderCell) = cells := by
  unfold columnOk at hok
  rw [Bool.or_eq_true] at hok
  rcases hok with hfl | hst
  · rw [List.all_eq_true] at hfl
    have hcond : (cells.map renderCell).all
        (fun f => f.isEmpty || (parseNum f).isSome) = true := by
      rw [List.all_eq_true]
      intro f hf
      obtain ⟨cell, hcell, rfl⟩ := List.mem_map.mp hf
      have hc := hfl cell hcell
      cases cell with
      | num q =>
          have hparse := parseNum_renderNum q (by simpa [cellFloatOk] using hc)
          simp [renderCell, hparse]
      | nan => simp [renderCell]
      | str s => simp [cellFloatOk] at hc
    unfold inferColumn
    rw [if_pos hcond, List.map_map]
    have hpt : ∀ cell ∈ cells,
        ((fun f => if f.isEmpty then PyVal.nan
            else PyVal.num ((parseNum f).getD 0)) ∘ renderCell) cell =
          cell := by
      intro cell hcell
      have hc := hfl cell hcell
      cases cell with
      | num q =>
          have hparse := parseNum_renderNum q (by simpa [cellFloatOk] using hc)
          simp [Function.comp, renderCell, renderNum_ne_nil q, hparse]
      | nan => simp [Function.comp, renderCell]
      | str s => simp [cellFloatOk] at hc
    rw [List.map_congr_left hpt]
    exact List.map_id _
  · rw [List.all_eq_true] at hst
    by_cases hcond : (cells.map renderCell).all
        (fun f => f.isEmpty || (parseNum f).isSome) = true
    · have hallnan : ∀ cell ∈ cells, cell = PyVal.nan := by
        intro cell hcell
        have hsok := hst cell hcell
        cases cell with
        | num q => simp [cellStrOk] at hsok
        | nan => rfl
        | str s =>
            rw [List.all_eq_true] at hcond
            have hf := hcond (renderCell (.str s)) (List.mem_map_of_mem _ hcell)
            unfold cellStrOk safeStrChars at hsok
            simp only [Bool.and_eq_true, Bool.not_eq_true'] at hsok
            have hdata_ne : ¬s.data = [] := by
              have h1 := hsok.1.1.1
              simp only [String.toList] at h1
              simpa using h1
            have hnone : parseNum s.data = none := by
              have h2 := hsok.1.1.2
              simp only [String.toList] at h2
              exact Option.isNone_iff_eq_none.mp h2
            simp only [renderCell, String.toList, Bool.or_eq_true] at hf
            rcases hf with h | h
            · exact (hdata_ne (by simpa using h)).elim
            · rw [hnone] at h
              simp at h
      unfold inferColumn
      rw [if_pos hcond, List.map_map]
      have hpt : ∀ cell ∈ cells,
          ((fun f => if f.isEmpty then PyVal.nan
              else PyVal.num ((parseNum f).getD 0)) ∘ renderCell) cell =
            cell := by
        intro cell hcell
        rw [hallnan cell hcell]
        simp [Function.comp, renderCell]
      rw [List.map_congr_left hpt]
      exact List.map_id _
    · unfold inferColumn
      rw [if_neg hcond, List.map_map]
      have hpt : ∀ cell ∈ cells,
          ((fun f => if f.isEmpty then PyVal.nan
              else PyVal.str (String.mk f)) ∘ renderCell) cell = cell := by
        intro cell hcell
        have hsok := hst cell hcell
        cases cell with
        | num q => simp [cellStrOk] at hsok
        | nan => simp [Function.comp, renderCell]
        | str s =>
            unfold cellStrOk safeStrChars at hsok
            simp only [Bool.and_eq_true, Bool.not_eq_true'] at hsok
            have hdata_ne : ¬s.data = [] := by
              have h1 := hsok.1.1.1
              simp only [String.toList] at h1
              simpa using h1
            simp [Function.comp, renderCell, hdata_ne]
      rw [List.map_congr_left hpt]
      exact List.map_id _

/-- C6: serializing a well-formed frame with `to_csv` and reparsing the
bytes with `read_csv` reconstructs the frame exactly — and reserializing
therefore reproduces the same bytes — whenever the header survives CSV
and every column is uniformly float-valued (exact decimals, as every
float's value is) or uniformly CSV-safe-string-valued. -/
theorem C6_csv_roundtrip (df : DataFrame) (hwf : df.WF)
    (hheader : headerOk df.columns = true)
    (hcols : ∀ j, j < df.columns.length → columnOk (colCells df j) = true) :
    parseCsv (csvBytes (toCsvTable df)) = some df ∧
    (parseCsv (csvBytes (toCsvTable df))).map
      (fun d => csvBytes (toCsvTable d)) = some (csvBytes (toCsvTable df)) := by
  unfold headerOk at hheader
  simp only [Bool.and_eq_true, Bool.not_eq_true'] at hheader
  have hcols_ne : df.columns ≠ [] := by
    have := hheader.1
    simpa using this
  have hheader_safe : ∀ c ∈ df.columns,
      (',' : Char) ∉ c.toList ∧ ('\n' : Char) ∉ c.toList := by
    intro c hc
    have h2 := List.all_eq_true.mp hheader.2 c hc
    simp only [Bool.and_eq_true, Bool.not_eq_true'] at h2
    exact ⟨by simpa using h2.1, by simpa using h2.2⟩
  have hcellok : ∀ row ∈ df.rows, ∀ cell ∈ row,
      cellFloatOk cell = true ∨ cellStrOk cell = true := by
    intro row hrow cell hcell
    obtain ⟨j, hj, rfl⟩ := List.mem_iff_getElem.mp hcell
    have hjm : j < df.columns.length := hwf row hrow ▸ hj
    have hmem : row[j] ∈ colCells df j := by
      unfold colCells
      refine List.mem_map.mpr ⟨row, hrow, ?_⟩
      simp [List.getD_eq_getElem?_getD, List.getElem?_eq_getElem, hj]
    have hcok := hcols j hjm
    unfold columnOk at hcok
    rw [Bool.or_eq_true] at hcok
    rcases hcok with h | h
    · exact Or.inl (List.all_eq_true.mp h _ hmem)
    · exact Or.inr (List.all_eq_true.mp h _ hmem)
  have hT_ne : toCsvTable df ≠ [] := by simp [toCsvTable]
  have hfields_ne : ∀ fields ∈ toCsvTable df, fields ≠ [] := by
    intro fields hf
    unfold toCsvTable at hf
    rcases List.mem_cons.mp hf with rfl | hrowf
    · simpa using hcols_ne
    · obtain ⟨row, hrow, rfl⟩ := List.mem_map.mp hrowf
      have hrow_ne : row ≠ [] := by
        intro hnil
        have hl := hwf row hrow
        rw [hnil] at hl
        simp at hl
        exact hcols_ne (List.length_eq_zero.mp hl.symm)
      simpa using hrow_ne
  have hfields_safe : ∀ fields ∈ toCsvTable df, ∀ f ∈ fields,
      (',' : Char) ∉ f ∧ ('\n' : Char) ∉ f := by
    intro fields hf f hff
    unfold toCsvTable at hf
    rcases List.mem_cons.mp hf with rfl | hrowf
    · obtain ⟨c, hc, rfl⟩ := List.mem_map.mp hff
      exact hheader_safe c hc
    · obtain ⟨row, hrow, rfl⟩ := List.mem_map.mp hrowf
      obtain ⟨cell, hcell, rfl⟩ := List.mem_map.mp hff
      have hok := hcellok row hrow cell hcell
      constructor
      · intro hx
        exact (renderCell_safe cell hok ',' hx).1 rfl
      · intro hx
        exact (renderCell_safe cell hok '\n' hx).2 rfl
  have hsplit := splitCsvBytes_csvBytes (toCsvTable df) hT_ne hfields_ne
    hfields_safe
  have hwidth : (df.rows.map (fun row => row.map renderCell)).all
      (fun r => r.length == (df.columns.map String.toList).length) = true := by
    rw [List.all_eq_true]
    intro r hr
    obtain ⟨row, hrow, rfl⟩ := List.mem_map.mp hr
    simp [hwf row hrow]
  have hcolumns_eq :
      (df.columns.map String.toList).map (fun f => String.mk f) =
        df.columns := by
    rw [List.map_map]
    have hpt : ∀ c ∈ df.columns,
        ((fun f => String.mk f) ∘ String.toList) c = c := fun c _ => rfl
    rw [List.map_congr_left hpt]
    exact List.map_id _
  have hcolj : ∀ j, j < df.columns.length →
      (df.rows.map (fun row => row.map renderCell)).map
        (fun r => r.getD j []) = (colCells df j).map renderCell := by
    intro j hj
    unfold colCells
    rw [List.map_map, List.map_map]
    apply List.map_congr_left
    intro row hrow
    have hjr : j < row.length := hwf row hrow ▸ hj
    simp [Function.comp, List.getD_eq_getElem?_getD, List.getElem?_map,
      List.getElem?_eq_getElem, hjr]
  have hcols_eq :
      (List.range (df.columns.map String.toList).length).map
        (fun j => inferColumn ((df.rows.map (fun row => row.map renderCell)).map
          (fun r => r.getD j []))) =
      (List.range df.columns.length).map (fun j => colCells df j) := by
    rw [List.length_map]
    apply List.map_congr_left
    intro j hj
    have hjlt : j < df.columns.length := List.mem_range.mp hj
    rw [hcolj j hjlt, inferColumn_renderCell _ (hcols j hjlt)]
  have hrows_eq :
      (List.range (df.rows.map (fun row => row.map renderCell)).length).map
        (fun i => ((List.range df.columns.length).map
          (fun j => colCells df j)).map (fun col => col.getD i PyVal.nan)) =
      df.rows := by
    rw [List.length_map]
    apply List.ext_getElem
    · simp
    · intro i h1 h2
      have h2' : i < df.rows.length := by simpa using h2
      rw [List.getElem_map, List.getElem_range, List.map_map]
      have hlen : df.rows[i].length = df.columns.length :=
        hwf _ (List.getElem_mem h2')
      have hpt : ∀ j ∈ List.range df.columns.length,
          ((fun col => col.getD i PyVal.nan) ∘ (fun j => colCells df j)) j =
            df.rows[i].getD j PyVal.nan := by
        intro j hj
        simp [Function.comp, colCells, List.getD_eq_getElem?_getD,
          List.getElem?_map, List.getElem?_eq_getElem, h2']
      rw [List.map_congr_left hpt, ← hlen, map_range_getD]
  constructor
  · unfold parseCsv
    rw [hsplit]
    unfold toCsvTable
    dsimp only
    rw [if_pos hwidth, hcols_eq, hrows_eq, hcolumns_eq]
  · have hfirst : parseCsv (csvBytes (toCsvTable df)) = some df := by
      unfold parseCsv
      rw [hsplit]
      unfold toCsvTable
      dsimp only
      rw [if_pos hwidth, hcols_eq, hrows_eq, hcolumns_eq]
    rw [hfirst]
    rfl

/-- A frame with float columns (fractional, negative, integral values and
a NaN) and a string column, as the app exports. -/
def csvDemoDf : DataFrame :=
  { columns := ["Latitude", "Longitude", "Elevation", "Rainfall",
      "Flood_Risk"],
    rows := [[.num (mkRat 3 2), .num (mkRat (-74006) 1000), .num 5,
              .num (mkRat 241 4), .str "High"],
             [.num 2, .nan, .num 30, .num 20, .str "Low"]] }

/-- C6, witness: the round-trip theorem instantiated on a concrete
two-row frame. -/
theorem C6_csv_roundtrip_witness :
    parseCsv (csvBytes (toCsvTable csvDemoDf)) = some csvDemoDf ∧
    (parseCsv (csvBytes (toCsvTable csvDemoDf))).map
      (fun d => csvBytes (toCsvTable d)) =
      some (csvBytes (toCsvTable csvDemoDf)) :=
  C6_csv_roundtrip csvDemoDf (by unfold DataFrame.WF; decide) (by decide)
    (by
      intro j hj
      have hj5 : j < 5 := hj
      interval_cases j <;> decide)

end FloodApp
